import Mathlib

/-!
# Verification of the scrapy-puppeteer action/response protocol

A shallow embedding of the core of the `scrapy-puppeteer` library
(`scrapypuppeteer/actions.py`, `request.py`, `response.py`,
`browser_managers/service_browser_manager.py`,
`browser_managers/playwright_browser_manager.py`,
`middlewares/recaptcha.py`, `middlewares/restore.py`), together with
theorems settling the specification claims about it.

Python values that can appear in action payloads are modelled by `PyValue`;
Python `dict`s are modelled by insertion-ordered association lists, matching
the deterministic iteration order of Python dictionaries.
-/

namespace ScrapyPuppeteer

/-- A Python value as it appears in JSON-serializable action payloads:
`None`, booleans, integers, strings, lists and (ordered) dicts. -/
inductive PyValue where
  | none
  | bool (b : Bool)
  | int (n : Int)
  | str (s : String)
  | list (xs : List PyValue)
  | dict (kvs : List (String × PyValue))
deriving Repr

/-- Whether a `PyValue` is Python's `None`. -/
def PyValue.isNone : PyValue → Bool
  | .none => true
  | _ => false

/-- Python dict assignment `d[k] = v` on an insertion-ordered association
list: replaces the value in place if the key exists, appends otherwise. -/
def dictSet (kvs : List (String × PyValue)) (k : String) (v : PyValue) :
    List (String × PyValue) :=
  match kvs with
  | [] => [(k, v)]
  | (k', v') :: rest =>
    if k' = k then (k', v) :: rest else (k', v') :: dictSet rest k v

mutual
/-- A deterministic rendering of a `PyValue` to a JSON string, as
`json.dumps` produces for the corresponding Python value. -/
def jsonDumps : PyValue → String
  | .none => "null"
  | .bool b => if b then "true" else "false"
  | .int n => toString n
  | .str s => "\"" ++ s ++ "\""
  | .list xs => "[" ++ jsonDumpsList xs ++ "]"
  | .dict kvs => "\x7b" ++ jsonDumpsKvs kvs ++ "\x7d"

/-- Renders the elements of a JSON array. -/
def jsonDumpsList : List PyValue → String
  | [] => ""
  | [x] => jsonDumps x
  | x :: xs => jsonDumps x ++ ", " ++ jsonDumpsList xs

/-- Renders the entries of a JSON object. -/
def jsonDumpsKvs : List (String × PyValue) → String
  | [] => ""
  | [(k, v)] => "\"" ++ k ++ "\": " ++ jsonDumps v
  | (k, v) :: xs => "\"" ++ k ++ "\": " ++ jsonDumps v ++ ", " ++ jsonDumpsKvs xs
end

/-- Is `needle` a prefix of the character list? -/
def charsPrefix : List Char → List Char → Bool
  | [], _ => true
  | _ :: _, [] => false
  | a :: as, b :: bs => a == b && charsPrefix as bs

/-- Is `needle` a contiguous sublist of the character list? -/
def charsInfix (needle : List Char) : List Char → Bool
  | [] => charsPrefix needle []
  | b :: bs => charsPrefix needle (b :: bs) || charsInfix needle bs

/-- Python's `needle in hay` substring test on strings. -/
def strContains (hay needle : String) : Bool :=
  charsInfix needle.toList hay.toList

/-! ## The action catalog (`scrapypuppeteer/actions.py`)

Each constructor carries exactly the fields the corresponding Python class
stores in `__init__`. Optional `dict`-valued parameters default to `None`
and are modelled by `Option PyValue`. `Compose.actions` is the flattened
list stored by the `Compose` constructor (see `mkCompose` below for the
flattening constructor itself). -/

inductive Action where
  | goTo (url : String) (navigation_options wait_options : Option PyValue)
      (har_recording : Bool)
  | goForward (navigation_options wait_options : Option PyValue)
  | goBack (navigation_options wait_options : Option PyValue)
  | click (selector : String)
      (click_options wait_options navigation_options : Option PyValue)
  | scroll (selector : Option String) (wait_options : Option PyValue)
  | screenshot (options : PyValue)
  | har
  | fillForm (input_mapping : PyValue) (submit_button : Option String)
  | recaptchaSolver (solve_recaptcha close_on_empty : Bool)
      (navigation_options wait_options : Option PyValue)
  | customJsAction (js_action : String)
  | compose (actions : List Action)
deriving Repr

/-- The wire endpoint name of each action (`endpoint` class attribute). -/
def Action.endpoint : Action → String
  | .goTo .. => "goto"
  | .goForward .. => "forward"
  | .goBack .. => "back"
  | .click .. => "click"
  | .scroll .. => "scroll"
  | .screenshot .. => "screenshot"
  | .har => "har"
  | .fillForm .. => "fill_form"
  | .recaptchaSolver .. => "recaptcha_solver"
  | .customJsAction .. => "action"
  | .compose .. => "compose"

/-- The content type of each action: `application/javascript` for
`CustomJsAction`, the inherited `application/json` for everything else. -/
def Action.contentType : Action → String
  | .customJsAction .. => "application/javascript"
  | _ => "application/json"

/-- An optional dict parameter as it appears in a payload: `None` when
absent. -/
def optPy (o : Option PyValue) : PyValue := o.getD .none

/-- An optional string parameter as it appears in a payload. -/
def optStr (o : Option String) : PyValue :=
  match o with
  | Option.none => .none
  | some s => .str s

mutual
/-- The `payload()` method of each action class, as a `PyValue`: a dict for
every JSON action and the raw script string for `CustomJsAction`. -/
def Action.payload : Action → PyValue
  | .goTo url nav wait harRec =>
    .dict [("url", .str url), ("navigationOptions", optPy nav),
           ("waitOptions", optPy wait), ("harRecording", .bool harRec)]
  | .goForward nav wait =>
    .dict [("navigationOptions", optPy nav), ("waitOptions", optPy wait)]
  | .goBack nav wait =>
    .dict [("navigationOptions", optPy nav), ("waitOptions", optPy wait)]
  | .click sel clickOpts wait nav =>
    .dict [("selector", .str sel), ("clickOptions", optPy clickOpts),
           ("waitOptions", optPy wait), ("navigationOptions", optPy nav)]
  | .scroll sel wait =>
    .dict [("selector", optStr sel), ("waitOptions", optPy wait)]
  | .screenshot options => .dict [("options", options)]
  | .har => .dict []
  | .fillForm inputMapping submitButton =>
    .dict [("inputMapping", inputMapping), ("submitButton", optStr submitButton)]
  | .recaptchaSolver solve closeOnEmpty nav wait =>
    .dict [("solve_recaptcha", .bool solve), ("close_on_empty", .bool closeOnEmpty),
           ("navigationOptions", optPy nav), ("waitOptions", optPy wait)]
  | .customJsAction js => .str js
  | .compose actions => .dict [("actions", .list (Action.payloadList actions))]

/-- The list of `{"endpoint": ..., "body": ...}` entries in a `Compose`
payload. -/
def Action.payloadList : List Action → List PyValue
  | [] => []
  | a :: rest =>
    .dict [("endpoint", .str a.endpoint), ("body", a.payload)] ::
      Action.payloadList rest
end

/-- One level of the flattening done by `Compose.__flatten`: a `Compose`
argument contributes its stored action list, anything else contributes
itself. -/
def flattenArg : Action → List Action
  | .compose inner => inner
  | a => [a]

/-- `Compose.__flatten` over the whole constructor argument tuple. -/
def flattenArgs (args : List Action) : List Action :=
  args.flatMap flattenArg

/-- The `Compose(*actions)` constructor: flattens the arguments and raises
`ValueError` when no actions remain. -/
def mkCompose (args : List Action) : Except String Action :=
  let flat := flattenArgs args
  if flat.isEmpty then .error "No actions provided in `Compose`."
  else .ok (.compose flat)

/-! ## Requests and responses (`request.py`, `response.py`)

Scrapy's `meta` dict is modelled by a record of the meta keys the embedded
middlewares read or write. Python object identity (used by the recaptcha
middleware's `_page_closing` set) is modelled by the `reqId` tag. -/

/-- The middleware-relevant entries of a request's `meta` dict. -/
structure Meta where
  dont_recaptcha : Bool := false
  captcha_solving : Bool := false
  captcha_submission : Bool := false
  recover_context : Bool := false
  request_binding : Bool := false
deriving Repr, DecidableEq

/-- A `PuppeteerRequest`: an action plus target session identifiers and
lifecycle flags. -/
structure PRequest where
  reqId : Nat := 0
  action : Action
  url : String
  context_id : Option String := Option.none
  page_id : Option String := Option.none
  close_page : Bool := true
  dont_filter : Bool := false
  meta : Meta := {}
deriving Repr

/-- The Python class of a `PuppeteerResponse` object. -/
inductive RespKind where
  | html
  | screenshot
  | har
  | captchaResult
  | json
deriving Repr, DecidableEq

/-- A `PuppeteerResponse`: its concrete class (`kind`), the request that
produced it, the session identifiers it carries, and the payload fields the
embedded middlewares read (`captchas` is `len(recaptcha_data["captchas"])`
of a `PuppeteerRecaptchaSolverResponse`, `body` the textual body/html). -/
structure PResponse where
  kind : RespKind
  url : String
  puppeteer_request : PRequest
  context_id : Option String
  page_id : Option String
  captchas : Nat := 0
  body : String := ""
deriving Repr

/-- The argument of `PuppeteerResponse.follow`: a URL string, a `Selector`,
a `Link` (each contributing a possibly relative URL), or a browser action. -/
inductive FollowTarget where
  | url (s : String)
  | selector (s : String)
  | link (s : String)
  | action (a : Action)
deriving Repr

/-- `PuppeteerResponse.follow`: build a new `PuppeteerRequest` in the same
browser context. `urljoin` is scrapy's URL resolution against `self.url`
(an external collaborator, passed as a parameter); `newId` is the fresh
identity of the created request object; `meta` is the `meta` keyword
argument. -/
def PResponse.follow (urljoin : String → String → String) (r : PResponse)
    (target : FollowTarget) (close_page : Bool := true) (meta : Meta := {})
    (newId : Nat := 0) : PRequest :=
  let page_id := if r.puppeteer_request.close_page then Option.none else r.page_id
  match target with
  | .url s =>
    let u := urljoin r.url s
    { reqId := newId, action := .goTo u Option.none Option.none false, url := u,
      context_id := r.context_id, page_id := page_id, close_page := close_page,
      meta := meta }
  | .selector s =>
    let u := urljoin r.url s
    { reqId := newId, action := .goTo u Option.none Option.none false, url := u,
      context_id := r.context_id, page_id := page_id, close_page := close_page,
      meta := meta }
  | .link s =>
    let u := urljoin r.url s
    { reqId := newId, action := .goTo u Option.none Option.none false, url := u,
      context_id := r.context_id, page_id := page_id, close_page := close_page,
      meta := meta }
  | .action (.goTo u nav wait harRec) =>
    let u' := urljoin r.url u
    { reqId := newId, action := .goTo u' nav wait harRec, url := u',
      context_id := r.context_id, page_id := page_id, close_page := close_page,
      meta := meta }
  | .action a =>
    { reqId := newId, action := a, url := r.url, context_id := r.context_id,
      page_id := page_id, close_page := close_page, dont_filter := true,
      meta := meta }

/-- The errors `PuppeteerResponse.follow_all` can raise while validating an
explicit action batch: `TypeError` for a non-`GoTo` browser action,
`IndexError` for `Compose([]).actions[0]` on a malformed empty compose. -/
inductive FollowAllError where
  | typeError
  | indexError
deriving Repr, DecidableEq

/-- The per-item validation loop of `follow_all` over an explicit `actions`
batch: browser actions other than `GoTo` — after replacing a `Compose` by
its first stored action — raise `TypeError`; strings, selectors and links
pass unchecked. -/
def followAllCheckItem : FollowTarget → Except FollowAllError Unit
  | .url _ => .ok ()
  | .selector _ => .ok ()
  | .link _ => .ok ()
  | .action a =>
    let first : Except FollowAllError Action :=
      match a with
      | .compose inner =>
        match inner.head? with
        | some x => .ok x
        | Option.none => .error .indexError
      | other => .ok other
    match first with
    | .error e => .error e
    | .ok (.goTo ..) => .ok ()
    | .ok _ => .error .typeError

/-- Validation of the whole batch, run before any request is yielded. -/
def followAllCheck : List FollowTarget → Except FollowAllError Unit
  | [] => .ok ()
  | t :: ts =>
    match followAllCheckItem t with
    | .error e => .error e
    | .ok _ => followAllCheck ts

/-- `PuppeteerResponse.follow_all` with an explicit `actions` batch: after
validation, each item is followed with `self.page_id` substituted by `None`
(forcing a fresh page in the same context); the response's own state is
restored afterwards. Fresh request identities are `baseId`, `baseId + 1`,
…. -/
def PResponse.followAll (urljoin : String → String → String) (r : PResponse)
    (items : List FollowTarget) (close_page : Bool := true) (baseId : Nat := 0) :
    Except FollowAllError (List PRequest) :=
  match followAllCheck items with
  | .error e => .error e
  | .ok _ =>
    .ok <| (List.range items.length).zip items |>.map fun (i, t) =>
      PResponse.follow urljoin { r with page_id := Option.none } t close_page {}
        (baseId + i)

/-! ## Response classification (`service_browser_manager.py`) -/

/-- `ServiceBrowserManager._get_response_class`: the response class chosen
for a given request action. -/
def getResponseClass : Action → RespKind
  | .goTo .. => .html
  | .goForward .. => .html
  | .goBack .. => .html
  | .click .. => .html
  | .scroll .. => .html
  | .fillForm .. => .html
  | .screenshot .. => .screenshot
  | .har => .har
  | .recaptchaSolver .. => .captchaResult
  | _ => .json

/-! ## The Playwright strategy (`playwright_browser_manager.py`)

`PlaywrightBrowserManager` dispatches on `action.endpoint` through
`action_map`. Its `goto`/`click`/`go_back`/`go_forward`/`scroll`/`fill_form`
handlers build a `PuppeteerHtmlResponse`, `screenshot` a
`PuppeteerScreenshotResponse`; `action`, `recaptcha_solver` and `har` raise
`ValueError`; `compose` executes the composed actions in order against the
same page and returns the last handler's response. An empty compose leaves
the local `response` variable unbound. -/

/-- The response class produced by the Playwright strategy for an action,
or the error message it raises. -/
def playwrightRespKind : Action → Except String RespKind
  | .goTo .. => .ok .html
  | .goForward .. => .ok .html
  | .goBack .. => .ok .html
  | .click .. => .ok .html
  | .scroll .. => .ok .html
  | .fillForm .. => .ok .html
  | .screenshot .. => .ok .screenshot
  | .har => .error "Har is not available in local mode"
  | .recaptchaSolver .. => .error "RecaptchaSolver is not available in local mode"
  | .customJsAction .. => .error "CustomJsAction is not available in local mode"
  | .compose [] => .error "local variable referenced before assignment"
  | .compose [a] => playwrightRespKind a
  | .compose (a :: b :: rest) =>
    match playwrightRespKind a with
    | .error e => .error e
    | .ok _ => playwrightRespKind (.compose (b :: rest))
termination_by a => sizeOf a
decreasing_by all_goals simp_wf <;> omega

/-! ## Service body serialization (`ServiceBrowserManager._serialize_body`) -/

/-- The `include_headers` policy: a boolean or an explicit header-name
list, as accepted by `PuppeteerRequest.include_headers` and the middleware
setting. -/
inductive IncludeHeaders where
  | flag (b : Bool)
  | names (l : List String)
deriving Repr

/-- Python truthiness of an `include_headers` value (an empty list is
falsy). -/
def IncludeHeaders.truthy : IncludeHeaders → Bool
  | .flag b => b
  | .names l => !l.isEmpty

/-- The request-side inputs of `_serialize_body`: `request.meta["proxy"]`,
`request.include_headers`, and `request.headers.to_unicode_dict()`. -/
structure ReqCtx where
  proxy : Option String := Option.none
  include_headers : Option IncludeHeaders := Option.none
  headers : List (String × String) := []
deriving Repr

/-- First-match association lookup on a header dict. -/
def lookupStr : List (String × String) → String → Option String
  | [], _ => Option.none
  | (k, v) :: rest, key => if k = key then some v else lookupStr rest key

/-- The dict comprehension
`{h.lower(): headers[h] for h in include_headers if h in headers}`. -/
def filterHeaders (incl : List String) (hs : List (String × String)) :
    List (String × PyValue) :=
  incl.foldl
    (fun acc h =>
      match lookupStr hs h with
      | some v => dictSet acc h.toLower (.str v)
      | Option.none => acc)
    []

/-- The dict comprehension
`{k: v for k, v in payload.items() if v is not None}` applied to a JSON
action's payload (the payload of a non-dict payload — never the case under
the `application/json` guard — contributes nothing). -/
def filteredPayloadEntries (a : Action) : List (String × PyValue) :=
  match a.payload with
  | .dict kvs => kvs.filter fun kv => !kv.2.isNone
  | _ => []

/-- The `payload["proxy"] = proxy` step of `_serialize_body`, applied when
`request.meta.get("proxy")` is truthy. -/
def serializeProxyStep (base : List (String × PyValue)) (proxy : Option String) :
    List (String × PyValue) :=
  match proxy with
  | some p => if p.isEmpty then base else dictSet base "proxy" (.str p)
  | Option.none => base

/-- The `payload["headers"] = headers` step of `_serialize_body`, applied
when the effective `include_headers` policy is truthy: all request headers
for a boolean policy, the lower-cased filtered selection for a name list. -/
def serializeHeadersStep (base : List (String × PyValue))
    (effective : IncludeHeaders) (headers : List (String × String)) :
    List (String × PyValue) :=
  if effective.truthy then
    dictSet base "headers"
      (.dict
        (match effective with
        | .names l => filterHeaders l headers
        | .flag _ => headers.map fun kv => (kv.1, PyValue.str kv.2)))
  else base

/-- The top-level dict `_serialize_body` passes to `json.dumps` for a JSON
action: the payload with `None`-valued keys dropped, then the proxy and the
policy-selected headers added. `cfg` is the manager's `include_headers`
setting, used when the request leaves its own unset. -/
def serializeTopDict (cfg : IncludeHeaders) (a : Action) (req : ReqCtx) :
    List (String × PyValue) :=
  serializeHeadersStep
    (serializeProxyStep (filteredPayloadEntries a) req.proxy)
    (req.include_headers.getD cfg) req.headers

/-- Python `str` of a payload, used by `_serialize_body` for
non-`application/json` actions (only `CustomJsAction`, whose payload is the
raw script string). -/
def pyStr : PyValue → String
  | .str s => s
  | v => jsonDumps v

/-- `ServiceBrowserManager._serialize_body`. -/
def serializeBody (cfg : IncludeHeaders) (a : Action) (req : ReqCtx) : String :=
  if a.contentType = "application/json" then
    jsonDumps (.dict (serializeTopDict cfg a req))
  else pyStr a.payload

/-! ## The context-restore middleware (`middlewares/restore.py`) -/

/-- A Python runtime error escaping the middleware. -/
inductive PyError where
  | keyError (key : String)
deriving Repr, DecidableEq

/-- The downloaded response seen by `process_response`: either a typed
`PuppeteerResponse` or a plain (error) response with an HTTP status and the
`contextId` field of its JSON body. -/
inductive DownloadedResponse where
  | pptr (r : PResponse)
  | plain (status : Nat) (contextIdInBody : Option String)
deriving Repr

/-- The `ActionRequest` handed to `process_response`: its action, the
`puppeteer_request` meta entry, and the `__request_binding_count` meta entry
(`Option.none` models an absent key). -/
structure ActionReq where
  action : Action
  url : String := ""
  puppeteer_request : Option PRequest := Option.none
  binding_count : Option Nat := Option.none
deriving Repr

/-- `PuppeteerContextRestoreDownloaderMiddleware` state: the two configured
bounds and `context_actions`, mapping a context id to the flat action list
of the stored `Compose`. -/
structure RestoreMW where
  restoring_length : Nat := 1
  n_retry_restoring : Nat := 1
  context_actions : List (Option String × List Action) := []
deriving Repr

/-- Association-list lookup keyed by context id. -/
def ctxLookup : List (Option String × List Action) → Option String →
    Option (List Action)
  | [], _ => Option.none
  | (k, v) :: rest, key => if k = key then some v else ctxLookup rest key

/-- Python dict assignment keyed by context id. -/
def ctxSet (kvs : List (Option String × List Action)) (key : Option String)
    (v : List Action) : List (Option String × List Action) :=
  match kvs with
  | [] => [(key, v)]
  | (k, v') :: rest =>
    if k = key then (k, v) :: rest else (k, v') :: ctxSet rest key v

/-- Python `del`/`pop` keyed by context id. -/
def ctxRemove (kvs : List (Option String × List Action)) (key : Option String) :
    List (Option String × List Action) :=
  kvs.filter fun kv => kv.1 ≠ key

/-- What `process_response` hands back to the engine. -/
inductive RestoreOutcome where
  | response (r : DownloadedResponse)
  | retryRequest (r : ActionReq)
  | restoringRequest (r : PRequest)
deriving Repr

/-- `process_request` of the restore middleware. The middleware never
rejects a request (the `Except` layer records that no error is raised): it
pops `recover_context`, logs a warning and skips tracking when the request
already carries session identifiers, and otherwise marks the request with
`__request_binding`. -/
def restoreProcessRequest (req : PRequest) : Except String PRequest :=
  if req.meta.recover_context = false then .ok req
  else
    let req := { req with meta := { req.meta with recover_context := false } }
    if req.context_id.isSome || req.page_id.isSome then .ok req
    else .ok { req with meta := { req.meta with request_binding := true } }

/-- `_update_context_actions`: called on a successful response whose context
is already tracked; discards tracking when the stored history is longer
than `restoring_length`, otherwise appends the request's action. -/
def RestoreMW.updateContextActions (mw : RestoreMW) (requestAction : Action)
    (context_id : Option String) : RestoreMW :=
  match ctxLookup mw.context_actions context_id with
  | Option.none => mw
  | some stored =>
    if stored.length > mw.restoring_length then
      { mw with context_actions := ctxRemove mw.context_actions context_id }
    else
      { mw with
        context_actions :=
          ctxSet mw.context_actions context_id
            (flattenArgs [Action.compose stored, requestAction]) }

/-- `_restore_context`: on a session-invalid error for a tracked context,
re-issue the original `puppeteer_request` with the stored history composed
in front of its action and the session identifiers cleared, consuming the
tracked entry; an untracked context surfaces the response unchanged. -/
def RestoreMW.restoreContext (mw : RestoreMW) (pr : PRequest)
    (resp : DownloadedResponse) (ctx : Option String) :
    RestoreOutcome × RestoreMW :=
  match ctxLookup mw.context_actions ctx with
  | some stored =>
    let restoring : PRequest :=
      { pr with
        action := .compose (flattenArgs [Action.compose stored, pr.action]),
        context_id := Option.none, page_id := Option.none,
        meta := { pr.meta with request_binding := true } }
    (.restoringRequest restoring,
     { mw with context_actions := ctxRemove mw.context_actions ctx })
  | Option.none => (.response resp, mw)

/-- `process_response` of the restore middleware. -/
def RestoreMW.processResponse (mw : RestoreMW) (request : ActionReq)
    (response : DownloadedResponse) :
    Except PyError (RestoreOutcome × RestoreMW) :=
  let requestBinding :=
    match request.puppeteer_request with
    | some pr => pr.meta.request_binding
    | Option.none => false
  match response with
  | .pptr r =>
    if requestBinding then
      .ok (.response response,
        { mw with
          context_actions :=
            ctxSet mw.context_actions r.context_id (flattenArgs [request.action]) })
    else if (ctxLookup mw.context_actions r.context_id).isSome then
      .ok (.response response, mw.updateContextActions request.action r.context_id)
    else .ok (.response response, mw)
  | .plain status bodyCtx =>
    match request.puppeteer_request with
    | Option.none => .ok (.response response, mw)
    | some pr =>
      if status = 422 then
        if requestBinding then
          if request.binding_count.getD 0 < mw.n_retry_restoring then
            match request.binding_count with
            | Option.none => .error (.keyError "__request_binding_count")
            | some n =>
              .ok (.retryRequest { request with binding_count := some (n + 1) }, mw)
          else .ok (.response response, mw)
        else .ok (mw.restoreContext pr response bodyCtx)
      else .ok (.response response, mw)

/-! ## The recaptcha middleware (`middlewares/recaptcha.py`) -/

/-- Actions after which «no recaptcha» can appear: `Screenshot`, `Scroll`,
`CustomJsAction`, `RecaptchaSolver` (the `isinstance` tuple in
`process_response`). -/
def isCaptchaExempt : Action → Bool
  | .screenshot .. => true
  | .scroll .. => true
  | .customJsAction .. => true
  | .recaptchaSolver .. => true
  | _ => false

/-- The `solve_recaptcha` attribute read by `_submit_recaptcha` (only ever
accessed on a `RecaptchaSolver` action). -/
def Action.solveRecaptchaFlag : Action → Bool
  | .recaptchaSolver solve _ _ _ => solve
  | _ => false

/-- The `close_on_empty` attribute of a `RecaptchaSolver` action. -/
def Action.closeOnEmptyFlag : Action → Bool
  | .recaptchaSolver _ closeOnEmpty _ _ => closeOnEmpty
  | _ => false

/-- The `selector` attribute of a `Click` action (the submit selectors are
always `Click` actions after `from_crawler` normalization). -/
def Action.clickSelector : Action → String
  | .click selector _ _ _ => selector
  | _ => ""

/-- `isinstance(·, PuppeteerHtmlResponse)`: true for
`PuppeteerHtmlResponse` itself and for `PuppeteerRecaptchaSolverResponse`,
which inherits from it. -/
def RespKind.htmlLike : RespKind → Bool
  | .html => true
  | .captchaResult => true
  | _ => false

/-- First-match association lookup keyed by page id. -/
def pageLookup : List (Option String × PResponse) → Option String →
    Option PResponse
  | [], _ => Option.none
  | (k, v) :: rest, key => if k = key then some v else pageLookup rest key

/-- Python dict assignment keyed by page id. -/
def pageSet (kvs : List (Option String × PResponse)) (key : Option String)
    (v : PResponse) : List (Option String × PResponse) :=
  match kvs with
  | [] => [(key, v)]
  | (k, v') :: rest =>
    if k = key then (k, v) :: rest else (k, v') :: pageSet rest key v

/-- Python dict `pop` keyed by page id (the removal part). -/
def pageRemove (kvs : List (Option String × PResponse)) (key : Option String) :
    List (Option String × PResponse) :=
  kvs.filter fun kv => kv.1 ≠ key

/-- `PuppeteerRecaptchaDownloaderMiddleware` state: the solving switch and
submit-selector table from settings, the per-page stored main responses,
and the identities of requests whose page close was deferred. -/
structure RecaptchaMW where
  recaptcha_solving : Bool := true
  submit_selectors : List (String × Action) := []
  page_responses : List (Option String × PResponse) := []
  page_closing : List Nat := []
deriving Repr

/-- What the recaptcha middleware hands back to the engine: a response for
the caller, a synthetic sub-request to download, or `IgnoreRequest`. -/
inductive RecaptchaOutcome where
  | response (r : PResponse)
  | request (r : PRequest)
  | ignore (msg : String)
deriving Repr

/-- `__is_closing`: whether the stored main request for the response's page
asked for the page to be closed, optionally consuming the entry. -/
def RecaptchaMW.isClosing (mw : RecaptchaMW) (resp : PResponse)
    (removeRequest : Bool := true) : Bool × RecaptchaMW :=
  match pageLookup mw.page_responses resp.page_id with
  | Option.none => (false, mw)
  | some main =>
    let rid := main.puppeteer_request.reqId
    let close := mw.page_closing.contains rid
    if close && removeRequest then
      (close, { mw with page_closing := mw.page_closing.filter (· ≠ rid) })
    else (close, mw)

/-- `__gen_response`: reconstitute the stored main response for the page,
clearing its `page_id` when the deferred close fires now, and patching its
body with the sub-protocol's post-solve/post-click HTML when the main
response is HTML-bearing. -/
def RecaptchaMW.genResponse (mw : RecaptchaMW) (resp : PResponse) :
    RecaptchaOutcome × RecaptchaMW :=
  let (closing, mw1) := mw.isClosing resp true
  let newPageId :=
    if closing then Option.none else resp.puppeteer_request.page_id
  match pageLookup mw1.page_responses resp.page_id with
  | Option.none => (.response resp, mw1)
  | some main =>
    let mw2 :=
      { mw1 with page_responses := pageRemove mw1.page_responses resp.page_id }
    let newBody :=
      if main.kind.htmlLike then
        match resp.puppeteer_request.action with
        | .recaptchaSolver .. => resp.body
        | .click .. => resp.body
        | _ => main.body
      else main.body
    (.response { main with page_id := newPageId, body := newBody }, mw2)

/-- `_solve_recaptcha`: store the main response keyed by its page and
substitute a synthetic `RecaptchaSolver` request against the same page,
with `close_on_empty` carrying the deferred close flag. -/
def RecaptchaMW.solveRecaptcha (urljoin : String → String → String)
    (mw : RecaptchaMW) (resp : PResponse) (newId : Nat) :
    RecaptchaOutcome × RecaptchaMW :=
  let mw1 :=
    { mw with page_responses := pageSet mw.page_responses resp.page_id resp }
  let closing := (mw1.isClosing resp false).1
  let solver :=
    Action.recaptchaSolver mw.recaptcha_solving closing Option.none Option.none
  (.request
      (resp.follow urljoin (.action solver) false { captcha_solving := true } newId),
    mw1)

/-- `_submit_recaptcha`: on the solver's response, either reconstitute the
main response directly, or click the first matching configured submit
selector, or raise `IgnoreRequest` when a captcha was found but no selector
matches. -/
def RecaptchaMW.submitRecaptcha (urljoin : String → String → String)
    (mw : RecaptchaMW) (resp : PResponse) (newId : Nat) :
    RecaptchaOutcome × RecaptchaMW :=
  if resp.puppeteer_request.action.solveRecaptchaFlag = false then
    mw.genResponse resp
  else if resp.captchas ≠ 0 && !mw.submit_selectors.isEmpty then
    match mw.submit_selectors.find? fun ds => strContains resp.url ds.1 with
    | some (_, submitting) =>
      if submitting.clickSelector.isEmpty then mw.genResponse resp
      else
        let (closing, mw1) := mw.isClosing resp true
        (.request
            (resp.follow urljoin (.action submitting) closing
              { captcha_submission := true } newId),
          mw1)
    | Option.none =>
      (.ignore "No submit selector found to click on the page but captcha found",
        mw)
  else mw.genResponse resp

/-- `process_request` of the recaptcha middleware: strip `close_page` from
a non-opted-out, non-submission request, remember its identity for the
deferred close, and re-schedule it. -/
def RecaptchaMW.processRequest (mw : RecaptchaMW) (req : PRequest) :
    Option PRequest × RecaptchaMW :=
  if req.meta.dont_recaptcha then (Option.none, mw)
  else if req.close_page && !req.meta.captcha_submission then
    let req' := { req with close_page := false, dont_filter := true }
    (some req', { mw with page_closing := req'.reqId :: mw.page_closing })
  else (Option.none, mw)

/-- `process_response` of the recaptcha middleware (for `PuppeteerResponse`
inputs, the only ones it rewrites). -/
def RecaptchaMW.processResponse (urljoin : String → String → String)
    (mw : RecaptchaMW) (resp : PResponse) (newId : Nat) :
    RecaptchaOutcome × RecaptchaMW :=
  let pr := resp.puppeteer_request
  if pr.meta.dont_recaptcha then (.response resp, mw)
  else if pr.meta.captcha_submission then mw.genResponse resp
  else if pr.meta.captcha_solving then mw.submitRecaptcha urljoin resp newId
  else if isCaptchaExempt pr.action then (.response resp, mw)
  else mw.solveRecaptcha urljoin resp newId

/-! ## The engine loop around the recaptcha middleware

The crawl engine is modelled as: run `process_request` (re-entering when a
replacement request is returned), download through an abstract `backend`,
run `process_response`, and loop while the middleware substitutes synthetic
sub-requests. The trace records every request actually downloaded. -/

/-- The final event observed by the caller. -/
inductive EngineOutcome where
  | delivered (r : PResponse)
  | ignored (msg : String)
  | outOfFuel
deriving Repr

/-- The engine loop; `fuel` bounds the number of pipeline steps, `nextId`
supplies fresh request identities for synthetic sub-requests. Returns the
caller-visible outcome and the trace of downloaded requests. -/
def engineRun (urljoin : String → String → String)
    (backend : PRequest → PResponse) :
    Nat → RecaptchaMW → PRequest → Nat → List PRequest →
    EngineOutcome × List PRequest
  | 0, _, _, _, trace => (.outOfFuel, trace)
  | fuel + 1, mw, req, nextId, trace =>
    match mw.processRequest req with
    | (some req', mw') => engineRun urljoin backend fuel mw' req' nextId trace
    | (Option.none, mw') =>
      let resp := backend req
      let trace' := trace ++ [req]
      match mw'.processResponse urljoin resp nextId with
      | (.response r, _) => (.delivered r, trace')
      | (.request r', mw'') =>
        engineRun urljoin backend fuel mw'' r' (nextId + 1) trace'
      | (.ignore m, _) => (.ignored m, trace')

/-- The scenario backend: echoes the request's session identifiers
(allocating `"C0"`/`"P0"` when absent), produces a response of the class
`_get_response_class` assigns to the request's action, reports `captchas`
detected captchas on solver responses, and returns the post-action page
content as `"solved-html"`. -/
def mockBackend (captchas : Nat) (req : PRequest) : PResponse :=
  { kind := getResponseClass req.action
    url := req.url
    puppeteer_request := req
    context_id := some (req.context_id.getD "C0")
    page_id := some (req.page_id.getD "P0")
    captchas := captchas
    body := "solved-html" }

/-! ## Helper lemmas -/

theorem flattenArgs_nil : flattenArgs [] = [] := rfl

theorem flattenArgs_cons (a : Action) (as : List Action) :
    flattenArgs (a :: as) = flattenArg a ++ flattenArgs as := by
  simp [flattenArgs]

theorem mem_dictSet {k : String} {v : PyValue} :
    ∀ {kvs : List (String × PyValue)} {kv : String × PyValue},
      kv ∈ dictSet kvs k v → kv ∈ kvs ∨ kv = (k, v) := by
  intro kvs
  induction kvs with
  | nil =>
    intro kv h
    exact Or.inr (by simpa [dictSet] using h)
  | cons hd tl ih =>
    rcases hd with ⟨k', v'⟩
    intro kv h
    simp only [dictSet] at h
    by_cases hk : k' = k
    · rw [if_pos hk] at h
      rcases List.mem_cons.mp h with h | h
      · exact Or.inr (by simp [h, hk])
      · exact Or.inl (List.mem_cons_of_mem _ h)
    · rw [if_neg hk] at h
      rcases List.mem_cons.mp h with h | h
      · exact Or.inl (List.mem_cons.mpr (Or.inl h))
      · rcases ih h with h | h
        · exact Or.inl (List.mem_cons_of_mem _ h)
        · exact Or.inr h

theorem ctxLookup_ctxSet_self (kvs : List (Option String × List Action))
    (k : Option String) (v : List Action) :
    ctxLookup (ctxSet kvs k v) k = some v := by
  induction kvs with
  | nil => simp [ctxSet, ctxLookup]
  | cons hd tl ih =>
    rcases hd with ⟨k', v'⟩
    by_cases hk : k' = k
    · simp [ctxSet, ctxLookup, hk]
    · simp [ctxSet, ctxLookup, hk, ih]

theorem ctxLookup_ctxRemove_self (kvs : List (Option String × List Action))
    (k : Option String) : ctxLookup (ctxRemove kvs k) k = Option.none := by
  induction kvs with
  | nil => simp [ctxRemove, ctxLookup]
  | cons hd tl ih =>
    rcases hd with ⟨k', v'⟩
    by_cases hk : k' = k
    · simpa [ctxRemove, hk] using ih
    · simpa [ctxRemove, ctxLookup, hk] using ih

/-! ## C5 — `Compose` flattening and the empty-compose error -/

/-- C5: `Compose` construction flattens nested `Compose` arguments into one
flat action list — `Compose(Compose(a, b), c)` is the same action, with the
same payload, as `Compose(a, b, c)` — and `Compose()` with zero effective
actions raises `ValueError` at construction time. -/
theorem compose_flattens_and_rejects_empty (a b c ab : Action)
    (h : mkCompose [a, b] = .ok ab) :
    (mkCompose ([] : List Action)).isOk = false
    ∧ mkCompose [ab, c] = mkCompose [a, b, c]
    ∧ ∀ x y, mkCompose [ab, c] = .ok x → mkCompose [a, b, c] = .ok y →
        x.payload = y.payload := by
  have hsplit : (flattenArgs [a, b]).isEmpty = false
      ∧ ab = .compose (flattenArgs [a, b]) := by
    by_cases hc : (flattenArgs [a, b]).isEmpty
    · rw [mkCompose, if_pos hc] at h
      exact absurd h (by simp)
    · rw [mkCompose, if_neg hc] at h
      exact ⟨Bool.eq_false_iff.mpr hc, (Except.ok.injEq _ _).mp h |>.symm⟩
  have hflat : flattenArgs [ab, c] = flattenArgs [a, b, c] := by
    rw [hsplit.2]
    simp [flattenArgs, flattenArg]
  have hmain : mkCompose [ab, c] = mkCompose [a, b, c] := by
    rw [mkCompose, mkCompose, hflat]
  refine ⟨rfl, hmain, ?_⟩
  intro x y hx hy
  rw [hmain, hy] at hx
  rw [(Except.ok.injEq _ _).mp hx]

/-- Witness for `compose_flattens_and_rejects_empty` at concrete actions. -/
theorem compose_flattens_and_rejects_empty_witness :
    mkCompose [Action.har, Action.har] = .ok (.compose [.har, .har])
    ∧ ((mkCompose ([] : List Action)).isOk = false
      ∧ mkCompose [Action.compose [.har, .har], .goBack Option.none Option.none] =
          mkCompose [Action.har, Action.har, .goBack Option.none Option.none]
      ∧ ∀ x y,
          mkCompose [Action.compose [.har, .har], .goBack Option.none Option.none] =
            .ok x →
          mkCompose [Action.har, Action.har, .goBack Option.none Option.none] =
            .ok y →
          x.payload = y.payload) :=
  ⟨rfl, compose_flattens_and_rejects_empty Action.har Action.har
    (.goBack Option.none Option.none) (.compose [.har, .har]) rfl⟩

/-! ## C7 — JSON bodies omit absent keys and are deterministic -/

theorem mem_filteredPayloadEntries (a : Action) :
    ∀ kv ∈ filteredPayloadEntries a, kv.2.isNone = false := by
  intro kv hkv
  rcases ha : a.payload with _ | _ | _ | _ | _ | kvs <;>
    simp [filteredPayloadEntries, ha] at hkv
  exact Bool.eq_false_iff.mpr (by simpa using hkv.2)

theorem mem_serializeProxyStep {base : List (String × PyValue)}
    {proxy : Option String} {kv : String × PyValue}
    (h : kv ∈ serializeProxyStep base proxy) :
    kv ∈ base ∨ ∃ p, kv = ("proxy", .str p) := by
  rcases proxy with _ | p
  · exact Or.inl h
  · simp only [serializeProxyStep] at h
    by_cases hp : p.isEmpty
    · rw [if_pos hp] at h
      exact Or.inl h
    · rw [if_neg hp] at h
      rcases mem_dictSet h with h | h
      · exact Or.inl h
      · exact Or.inr ⟨p, h⟩

theorem mem_serializeHeadersStep {base : List (String × PyValue)}
    {effective : IncludeHeaders} {headers : List (String × String)}
    {kv : String × PyValue} (h : kv ∈ serializeHeadersStep base effective headers) :
    kv ∈ base ∨ ∃ d, kv = ("headers", .dict d) := by
  simp only [serializeHeadersStep] at h
  by_cases ht : effective.truthy
  · rw [if_pos ht] at h
    rcases mem_dictSet h with h | h
    · exact Or.inl h
    · exact Or.inr ⟨_, h⟩
  · rw [if_neg ht] at h
    exact Or.inl h

/-- C7: for every action serialized as `application/json`, the body is the
JSON rendering of a top-level dict in which no key has an absent (`None`)
value; with no proxy and no header forwarding that dict is exactly the
payload minus its `None`-valued keys; and serialization is a pure function
of its inputs, so serializing the same action twice yields byte-identical
bodies. -/
theorem serialize_body_omits_absent_keys (cfg : IncludeHeaders) (a : Action)
    (req : ReqCtx) (hjson : a.contentType = "application/json") :
    (∀ kv ∈ serializeTopDict cfg a req, kv.2.isNone = false)
    ∧ serializeBody cfg a req = jsonDumps (.dict (serializeTopDict cfg a req))
    ∧ serializeBody cfg a req = serializeBody cfg a req
    ∧ ((req.proxy.getD "").isEmpty = true →
        (req.include_headers.getD cfg).truthy = false →
        serializeTopDict cfg a req = filteredPayloadEntries a) := by
  constructor
  · intro kv hkv
    rcases mem_serializeHeadersStep hkv with h | ⟨d, hd⟩
    · rcases mem_serializeProxyStep h with h | ⟨p, hp⟩
      · exact mem_filteredPayloadEntries a kv h
      · simp [hp, PyValue.isNone]
    · simp [hd, PyValue.isNone]
  refine ⟨by rw [serializeBody, if_pos hjson], rfl, ?_⟩
  intro hproxy htruthy
  rw [serializeTopDict, serializeHeadersStep.eq_def, if_neg (by simp [htruthy])]
  rcases hp : req.proxy with _ | p
  · rfl
  · rw [hp] at hproxy
    simp only [Option.getD] at hproxy
    simp [serializeProxyStep, hproxy]

/-- Witness for `serialize_body_omits_absent_keys`: a `GoTo` with absent
navigation and wait options drops exactly those two keys. -/
theorem serialize_body_omits_absent_keys_witness :
    (Action.goTo "https://example.test" Option.none Option.none
        false).contentType = "application/json"
    ∧ (∀ kv ∈ serializeTopDict (.flag false)
          (.goTo "https://example.test" Option.none Option.none false) {},
        kv.2.isNone = false)
    ∧ serializeTopDict (.flag false)
        (.goTo "https://example.test" Option.none Option.none false) {} =
        [("url", .str "https://example.test"), ("harRecording", .bool false)] := by
  have h := serialize_body_omits_absent_keys (.flag false)
    (.goTo "https://example.test" Option.none Option.none false) {} rfl
  refine ⟨rfl, h.1, ?_⟩
  rw [h.2.2.2 rfl rfl]
  rfl

/-! ## C3 — `follow` reuses the context and conditionally the page -/

/-- C3: `PuppeteerResponse.follow` always reuses the response's
`context_id`, and reuses the response's `page_id` exactly when the request
that produced the response had `close_page = False`; when that request had
`close_page = True` the new request's `page_id` is `None`, forcing
fresh-page allocation. -/
theorem follow_reuses_context_and_page (urljoin : String → String → String)
    (r : PResponse) (t : FollowTarget) (cp : Bool) (m : Meta) (newId : Nat) :
    (r.follow urljoin t cp m newId).context_id = r.context_id
    ∧ (r.follow urljoin t cp m newId).page_id =
        (if r.puppeteer_request.close_page then Option.none else r.page_id) := by
  cases t with
  | url s => exact ⟨rfl, rfl⟩
  | selector s => exact ⟨rfl, rfl⟩
  | link s => exact ⟨rfl, rfl⟩
  | action a => cases a <;> exact ⟨rfl, rfl⟩

/-! ## C10 — `follow_all` only accepts `GoTo`-like browser actions -/

theorem followAllCheck_error_of_mem {items : List FollowTarget}
    {t : FollowTarget} (hm : t ∈ items)
    (hbad : (followAllCheckItem t).isOk = false) :
    ∃ e, followAllCheck items = .error e := by
  induction items with
  | nil => cases hm
  | cons hd tl ih =>
    rw [followAllCheck]
    rcases hhd : followAllCheckItem hd with e | u
    · exact ⟨e, rfl⟩
    · rcases List.mem_cons.mp hm with h | h
      · rw [h, hhd] at hbad
        exact absurd hbad (by simp [Except.isOk, Except.toBool])
      · exact ih h

/-- C10: `follow_all` with an explicit action batch validates the whole
batch before yielding anything: any browser action other than `GoTo` — in
particular any `Compose` whose first flattened action is not a `GoTo` —
makes it raise `TypeError` (and an empty malformed `Compose` an
`IndexError`) with no request produced, while URL-string, `Selector` and
`Link` items are never restricted. -/
theorem follow_all_rejects_non_goto (urljoin : String → String → String)
    (r : PResponse) (items : List FollowTarget) (cp : Bool) (baseId : Nat) :
    ((∃ a, FollowTarget.action a ∈ items
        ∧ (match a with
          | .goTo .. => False
          | .compose inner =>
            match inner.head? with
            | some (.goTo ..) => False
            | _ => True
          | _ => True)) →
      ∃ e, r.followAll urljoin items cp baseId = .error e)
    ∧ ((∀ t ∈ items,
          match t with
          | .action _ => False
          | _ => True) →
        ∃ l, r.followAll urljoin items cp baseId = .ok l) := by
  constructor
  · rintro ⟨a, hm, hbad⟩
    have hfail : (followAllCheckItem (.action a)).isOk = false := by
      rcases a with _ | _ | _ | _ | _ | _ | _ | _ | _ | _ | inner
      · exact absurd hbad not_false
      all_goals try rfl
      rcases inner with _ | ⟨x, xs⟩
      · rfl
      · rcases x with _ | _ | _ | _ | _ | _ | _ | _ | _ | _ | _
        · exact absurd hbad not_false
        all_goals rfl
    obtain ⟨e, he⟩ := followAllCheck_error_of_mem hm hfail
    refine ⟨e, ?_⟩
    simp only [PResponse.followAll, he]
  · intro hok
    have hchk : followAllCheck items = .ok () := by
      induction items with
      | nil => rfl
      | cons hd tl ih =>
        have hhd : followAllCheckItem hd = .ok () := by
          rcases hd with s | s | s | a
          · rfl
          · rfl
          · rfl
          · exact absurd (hok (.action a) (List.mem_cons_self _ _)) not_false
        rw [followAllCheck, hhd]
        exact ih fun t ht => hok t (List.mem_cons_of_mem _ ht)
    refine ⟨(List.range items.length).zip items |>.map fun (i, t) =>
      PResponse.follow urljoin { r with page_id := Option.none } t cp {}
        (baseId + i), ?_⟩
    simp only [PResponse.followAll, hchk]

/-- Witness for `follow_all_rejects_non_goto`: a batch containing a `Click`
is rejected; a batch of two URL strings is accepted. -/
theorem follow_all_rejects_non_goto_witness :
    (∃ e,
      PResponse.followAll (fun _ s => s)
        { kind := .html, url := "https://e",
          puppeteer_request := { action := .har, url := "https://e" },
          context_id := some "C", page_id := some "P" }
        [.url "https://a",
         .action (.click "#b" Option.none Option.none Option.none)]
        true 0 = .error e)
    ∧ ∃ l,
      PResponse.followAll (fun _ s => s)
        { kind := .html, url := "https://e",
          puppeteer_request := { action := .har, url := "https://e" },
          context_id := some "C", page_id := some "P" }
        [.url "https://a", .url "https://b"] true 0 = .ok l := by
  have h1 := follow_all_rejects_non_goto (fun _ s => s)
    { kind := .html, url := "https://e",
      puppeteer_request := { action := .har, url := "https://e" },
      context_id := some "C", page_id := some "P" }
    [.url "https://a", .action (.click "#b" Option.none Option.none Option.none)]
    true 0
  have h2 := follow_all_rejects_non_goto (fun _ s => s)
    { kind := .html, url := "https://e",
      puppeteer_request := { action := .har, url := "https://e" },
      context_id := some "C", page_id := some "P" }
    [.url "https://a", .url "https://b"] true 0
  refine ⟨h1.1 ⟨.click "#b" Option.none Option.none Option.none,
      List.mem_cons.mpr (Or.inr (List.mem_cons_self _ _)), trivial⟩,
    h2.2 ?_⟩
  intro t ht
  rcases List.mem_cons.mp ht with rfl | ht
  · trivial
  · rcases List.mem_cons.mp ht with rfl | ht
    · trivial
    · cases ht

/-! ## C2 — response classification across the two backend strategies -/

/-- A one-action `Compose` of a `Screenshot`, on which the two strategies
classify differently. -/
def composeOfScreenshot : Action := .compose [.screenshot (.dict [])]

/-- C2 counterexample: response classification is not identical across
backend strategies. The service strategy classifies any `Compose` as a
JSON response, while the Playwright strategy returns the last composed
action's response — here a `Screenshot` response. -/
theorem classification_differs_across_strategies :
    getResponseClass composeOfScreenshot = RespKind.json
    ∧ playwrightRespKind composeOfScreenshot = .ok RespKind.screenshot
    ∧ RespKind.json ≠ RespKind.screenshot := by
  refine ⟨rfl, ?_, by decide⟩
  simp [playwrightRespKind, composeOfScreenshot]

/-- C2 as amended: classification is a total function matching the claimed
table for the service strategy; the Playwright strategy agrees on the six
Html-bearing actions and on `Screenshot`, but raises `ValueError` for
`Har`, `RecaptchaSolver` and `CustomJsAction` instead of producing a
response, fails on an empty `Compose`, and answers a `Compose` whose
members all succeed with the class of its *last* member (not Json). -/
theorem classification_per_strategy (u s js : String)
    (n w cl : Option PyValue) (opts ip : PyValue) (sb : Option String)
    (sr ce : Bool) (acts : List Action) (last : Action) :
    (getResponseClass (.goTo u n w sr) = .html
      ∧ getResponseClass (.goForward n w) = .html
      ∧ getResponseClass (.goBack n w) = .html
      ∧ getResponseClass (.click s cl w n) = .html
      ∧ getResponseClass (.scroll sb w) = .html
      ∧ getResponseClass (.fillForm ip sb) = .html
      ∧ getResponseClass (.screenshot opts) = .screenshot
      ∧ getResponseClass .har = .har
      ∧ getResponseClass (.recaptchaSolver sr ce n w) = .captchaResult
      ∧ getResponseClass (.customJsAction js) = .json
      ∧ getResponseClass (.compose acts) = .json)
    ∧ (playwrightRespKind (.goTo u n w sr) = .ok .html
      ∧ playwrightRespKind (.goForward n w) = .ok .html
      ∧ playwrightRespKind (.goBack n w) = .ok .html
      ∧ playwrightRespKind (.click s cl w n) = .ok .html
      ∧ playwrightRespKind (.scroll sb w) = .ok .html
      ∧ playwrightRespKind (.fillForm ip sb) = .ok .html
      ∧ playwrightRespKind (.screenshot opts) = .ok .screenshot)
    ∧ ((playwrightRespKind .har).isOk = false
      ∧ (playwrightRespKind (.recaptchaSolver sr ce n w)).isOk = false
      ∧ (playwrightRespKind (.customJsAction js)).isOk = false
      ∧ (playwrightRespKind (.compose [])).isOk = false)
    ∧ ((∀ x ∈ acts, (playwrightRespKind x).isOk = true) →
        playwrightRespKind (.compose (acts ++ [last])) =
          playwrightRespKind last) := by
  refine ⟨⟨rfl, rfl, rfl, rfl, rfl, rfl, rfl, rfl, rfl, rfl, rfl⟩,
    ⟨?_, ?_, ?_, ?_, ?_, ?_, ?_⟩, ⟨?_, ?_, ?_, ?_⟩, ?_⟩
  · simp [playwrightRespKind]
  · simp [playwrightRespKind]
  · simp [playwrightRespKind]
  · simp [playwrightRespKind]
  · simp [playwrightRespKind]
  · simp [playwrightRespKind]
  · simp [playwrightRespKind]
  · simp [playwrightRespKind, Except.isOk, Except.toBool]
  · simp [playwrightRespKind, Except.isOk, Except.toBool]
  · simp [playwrightRespKind, Except.isOk, Except.toBool]
  · simp [playwrightRespKind, Except.isOk, Except.toBool]
  · intro hall
    induction acts with
    | nil => simp [playwrightRespKind]
    | cons x xs ih =>
      have hx : (playwrightRespKind x).isOk = true :=
        hall x (List.mem_cons_self _ _)
      obtain ⟨k, hk⟩ : ∃ k, playwrightRespKind x = .ok k := by
        rcases hval : playwrightRespKind x with e | k
        · rw [hval] at hx
          exact absurd hx (by simp [Except.isOk, Except.toBool])
        · exact ⟨k, rfl⟩
      have htl := ih fun t ht => hall t (List.mem_cons_of_mem _ ht)
      rcases hxs : xs ++ [last] with _ | ⟨y, ys⟩
      · exact absurd hxs (by simp)
      · calc playwrightRespKind (.compose ((x :: xs) ++ [last]))
            = playwrightRespKind (.compose (x :: (y :: ys))) := by
              rw [List.cons_append, hxs]
          _ = playwrightRespKind (.compose (y :: ys)) := by
              simp [playwrightRespKind, hk]
          _ = playwrightRespKind last := by rw [← hxs]; exact htl

/-- Witness for `classification_per_strategy` at concrete parameters. -/
theorem classification_per_strategy_witness :
    (∀ x ∈ [Action.goTo "https://e" Option.none Option.none false],
        (playwrightRespKind x).isOk = true)
    ∧ playwrightRespKind
        (.compose
          [Action.goTo "https://e" Option.none Option.none false,
           .screenshot (.dict [])]) =
        playwrightRespKind (.screenshot (.dict [])) := by
  have h := classification_per_strategy "https://e" "#s" "f()"
    Option.none Option.none Option.none
    (.dict []) (.dict []) Option.none false false
    [Action.goTo "https://e" Option.none Option.none false]
    (.screenshot (.dict []))
  have hall : ∀ x ∈ [Action.goTo "https://e" Option.none Option.none false],
      (playwrightRespKind x).isOk = true := by
    intro x hx
    rw [List.mem_singleton.mp hx]
    simp [playwrightRespKind, Except.isOk, Except.toBool]
  exact ⟨hall, h.2.2.2 hall⟩

/-! ## C6 — the tracked history versus the `RESTORING_LENGTH` bound -/

/-- A bootstrap navigation used in the restore fixtures. -/
def navAction : Action := .goTo "https://a.test" Option.none Option.none false

/-- A follow-up click used in the restore fixtures. -/
def clickAction : Action := .click "#next" Option.none Option.none Option.none

/-- The bootstrap `PuppeteerRequest`, marked `__request_binding` by
`process_request`. -/
def bootPR : PRequest :=
  { action := navAction, url := "https://a.test",
    meta := { request_binding := true } }

/-- The follow-up `PuppeteerRequest` in the tracked context. -/
def stepPR : PRequest := { action := clickAction, url := "https://a.test" }

/-- The successful response to the bootstrap request. -/
def bootResp : PResponse :=
  { kind := .html, url := "https://a.test", puppeteer_request := bootPR,
    context_id := some "C", page_id := some "P" }

/-- The successful response to the follow-up request. -/
def stepResp : PResponse :=
  { kind := .html, url := "https://a.test", puppeteer_request := stepPR,
    context_id := some "C", page_id := some "P" }

/-- The `ActionRequest` carrying the bootstrap request. -/
def bootAReq : ActionReq :=
  { action := navAction, puppeteer_request := some bootPR }

/-- The `ActionRequest` carrying the follow-up request. -/
def stepAReq : ActionReq :=
  { action := clickAction, puppeteer_request := some stepPR }

/-- The restore middleware state (at the default bounds `L = R = 1`) after
a tracked bootstrap success followed by one further tracked success. -/
def restoreAfterTwo : Option RestoreMW :=
  match RestoreMW.processResponse {} bootAReq (.pptr bootResp) with
  | .ok (_, mw1) =>
    match mw1.processResponse stepAReq (.pptr stepResp) with
    | .ok (_, mw2) => some mw2
    | .error _ => Option.none
  | .error _ => Option.none

/-- C6 counterexample: with `RESTORING_LENGTH = 1`, two successful
responses leave a tracked history of **two** actions — the stored history
does exceed `L`, because `_update_context_actions` only discards when the
length already exceeds the bound *before* appending. -/
theorem tracked_history_exceeds_restoring_length :
    restoreAfterTwo =
      some { restoring_length := 1, n_retry_restoring := 1,
             context_actions := [(some "C", [navAction, clickAction])] }
    ∧ ∃ mw h, restoreAfterTwo = some mw
        ∧ ctxLookup mw.context_actions (some "C") = some h
        ∧ mw.restoring_length < h.length :=
  ⟨rfl, _, _, rfl, rfl, by decide⟩

/-- C6 as amended: `_update_context_actions` discards tracking for the
context exactly when the stored history is already longer than
`RESTORING_LENGTH`, and otherwise appends the action, so one update starting
from a history within the bound leaves at most `RESTORING_LENGTH + 1`
actions (the bound is `L + 1`, not `L`). -/
theorem update_context_actions_bound (mw : RestoreMW) (a : Action)
    (c : Option String) (h : List Action)
    (hl : ctxLookup mw.context_actions c = some h) :
    (mw.restoring_length < h.length →
      ctxLookup (mw.updateContextActions a c).context_actions c = Option.none)
    ∧ (h.length ≤ mw.restoring_length →
        ctxLookup (mw.updateContextActions a c).context_actions c =
          some (h ++ flattenArg a)
        ∧ (flattenArg a = [a] →
            (h ++ flattenArg a).length ≤ mw.restoring_length + 1)) := by
  have hfl : flattenArgs [Action.compose h, a] = h ++ flattenArg a := by
    simp [flattenArgs, flattenArg]
  constructor
  · intro hlt
    simp only [RestoreMW.updateContextActions, hl]
    rw [if_pos (by omega)]
    exact ctxLookup_ctxRemove_self _ _
  · intro hle
    simp only [RestoreMW.updateContextActions, hl]
    rw [if_neg (by omega), hfl]
    refine ⟨ctxLookup_ctxSet_self _ _ _, ?_⟩
    intro hfa
    rw [hfa]
    simp
    omega

/-- Witness for `update_context_actions_bound` at a one-action history with
`L = 1`. -/
theorem update_context_actions_bound_witness :
    ctxLookup [(some "C", [navAction])] (some "C") = some [navAction]
    ∧ (((1 : Nat) < [navAction].length →
        ctxLookup ((RestoreMW.updateContextActions
            { context_actions := [(some "C", [navAction])] } clickAction
            (some "C")).context_actions) (some "C") = Option.none)
      ∧ ([navAction].length ≤ 1 →
          ctxLookup ((RestoreMW.updateContextActions
              { context_actions := [(some "C", [navAction])] } clickAction
              (some "C")).context_actions) (some "C") =
            some ([navAction] ++ flattenArg clickAction)
          ∧ (flattenArg clickAction = [clickAction] →
              ([navAction] ++ flattenArg clickAction).length ≤ 1 + 1))) :=
  ⟨rfl, update_context_actions_bound
    { context_actions := [(some "C", [navAction])] } clickAction (some "C")
    [navAction] rfl⟩

/-! ## C9 — marking a mid-sequence request as recoverable -/

/-- A request marked `recover_context` that already carries a `page_id`. -/
def midSeqReq : PRequest :=
  { action := navAction, url := "https://a.test", page_id := some "P",
    meta := { recover_context := true } }

/-- C9 counterexample: a recoverable-marked request that already carries a
session identifier is **not** rejected: `process_request` returns normally
(only logging a warning), the request goes on to be downloaded, and it is
simply never marked as a tracked bootstrap. -/
theorem recoverable_with_ids_not_rejected :
    (restoreProcessRequest midSeqReq).isOk = true
    ∧ restoreProcessRequest midSeqReq =
        .ok { midSeqReq with
              meta := { midSeqReq.meta with recover_context := false } }
    ∧ ∀ r, restoreProcessRequest midSeqReq = .ok r →
        r.meta.request_binding = false := by
  refine ⟨rfl, rfl, ?_⟩
  intro r hr
  have h2 : restoreProcessRequest midSeqReq =
      .ok { midSeqReq with
            meta := { midSeqReq.meta with recover_context := false } } := rfl
  rw [← (Except.ok.injEq _ _).mp (h2.symm.trans hr)]
  rfl

/-- C9 as amended: the `recover_context` marking is honoured only on a
request with no session identifiers, which becomes the tracked bootstrap
(`__request_binding`); on a request that carries a `context_id` or
`page_id` the marking is ignored with a warning — the request proceeds
unbound rather than being rejected. -/
theorem recoverable_marking_semantics (req : PRequest) :
    (req.meta.recover_context = true →
      (req.context_id.isSome || req.page_id.isSome) = true →
      restoreProcessRequest req =
        .ok { req with meta := { req.meta with recover_context := false } })
    ∧ (req.meta.recover_context = true →
        req.context_id = Option.none → req.page_id = Option.none →
        restoreProcessRequest req =
          .ok { req with
                meta :=
                  { req.meta with
                    recover_context := false, request_binding := true } })
    ∧ (req.meta.recover_context = false →
        restoreProcessRequest req = .ok req) := by
  refine ⟨?_, ?_, ?_⟩
  · intro h1 h2
    simp [restoreProcessRequest, h1, h2]
  · intro h1 h2 h3
    simp [restoreProcessRequest, h1, h2, h3]
  · intro h1
    simp [restoreProcessRequest, h1]

/-- Witness for `recoverable_marking_semantics` at `midSeqReq` and at an
identifier-free bootstrap. -/
theorem recoverable_marking_semantics_witness :
    (midSeqReq.meta.recover_context = true
      ∧ (midSeqReq.context_id.isSome || midSeqReq.page_id.isSome) = true
      ∧ restoreProcessRequest midSeqReq =
          .ok { midSeqReq with
                meta := { midSeqReq.meta with recover_context := false } })
    ∧ restoreProcessRequest
        { action := navAction, url := "https://a.test",
          meta := { recover_context := true } } =
        .ok { action := navAction, url := "https://a.test",
              meta := { recover_context := false, request_binding := true } } :=
  ⟨⟨rfl, rfl, (recoverable_marking_semantics midSeqReq).1 rfl rfl⟩,
    (recoverable_marking_semantics
      { action := navAction, url := "https://a.test",
        meta := { recover_context := true } }).2.1 rfl rfl rfl⟩

/-! ## C4 — replay of the composed history on session-invalid errors -/

/-- C4: on an HTTP 422 response for a `PuppeteerRequest` whose reported
`contextId` is tracked, the middleware re-issues one new request whose
action composes the entire tracked history, in order, followed by the
failed action, with the session identifiers cleared, the tracked entry
consumed and the new request marked as a binding request (so tracking
restarts at the new context once it succeeds — last conjunct); an
untracked `contextId` or an exhausted retry budget surfaces the error
response unchanged. -/
theorem restore_replays_composed_history (mw : RestoreMW)
    (request : ActionReq) (pr : PRequest) (c : Option String)
    (stored : List Action) (n : Nat) (resp : PResponse) :
    (request.puppeteer_request = some pr → pr.meta.request_binding = false →
      ctxLookup mw.context_actions c = some stored →
      flattenArg pr.action = [pr.action] →
      mw.processResponse request (.plain 422 c) =
        .ok (.restoringRequest
            { pr with
              action := .compose (stored ++ [pr.action]),
              context_id := Option.none, page_id := Option.none,
              meta := { pr.meta with request_binding := true } },
          { mw with context_actions := ctxRemove mw.context_actions c }))
    ∧ (request.puppeteer_request = some pr → pr.meta.request_binding = false →
        ctxLookup mw.context_actions c = Option.none →
        mw.processResponse request (.plain 422 c) =
          .ok (.response (.plain 422 c), mw))
    ∧ (request.puppeteer_request = some pr → pr.meta.request_binding = true →
        request.binding_count = some n → mw.n_retry_restoring ≤ n →
        mw.processResponse request (.plain 422 c) =
          .ok (.response (.plain 422 c), mw))
    ∧ (request.puppeteer_request = some pr → pr.meta.request_binding = true →
        mw.processResponse request (.pptr resp) =
          .ok (.response (.pptr resp),
            { mw with
              context_actions :=
                ctxSet mw.context_actions resp.context_id
                  (flattenArgs [request.action]) })) := by
  refine ⟨?_, ?_, ?_, ?_⟩
  · intro hpr hb hl hfa
    have hfl : flattenArgs [Action.compose stored, pr.action] =
        stored ++ [pr.action] := by
      simp only [flattenArgs, List.flatMap_cons, List.flatMap_nil,
        List.append_nil, hfa]
      simp [flattenArg]
    simp [RestoreMW.processResponse, RestoreMW.restoreContext, hpr, hb, hl, hfl]
  · intro hpr hb hl
    simp [RestoreMW.processResponse, RestoreMW.restoreContext, hpr, hb, hl]
  · intro hpr hb hc hn
    simp [RestoreMW.processResponse, hpr, hb, hc, Nat.not_lt.mpr hn]
  · intro hpr hb
    simp [RestoreMW.processResponse, hpr, hb]

/-- Witness for `restore_replays_composed_history`: a one-step tracked
history replayed in front of the failing click. -/
theorem restore_replays_composed_history_witness :
    ctxLookup [(some "C", [navAction])] (some "C") = some [navAction]
    ∧ RestoreMW.processResponse
        { context_actions := [(some "C", [navAction])] } stepAReq
        (.plain 422 (some "C")) =
      .ok (.restoringRequest
          { stepPR with
            action := .compose ([navAction] ++ [stepPR.action]),
            context_id := Option.none, page_id := Option.none,
            meta := { stepPR.meta with request_binding := true } },
        { ({ context_actions := [(some "C", [navAction])] } : RestoreMW) with
          context_actions :=
            ctxRemove [(some "C", [navAction])] (some "C") }) :=
  ⟨rfl, (restore_replays_composed_history
      { context_actions := [(some "C", [navAction])] } stepAReq stepPR
      (some "C") [navAction] 0 bootResp).1 rfl rfl rfl rfl⟩

/-! ## C8 — the bootstrap retry path raises `KeyError` -/

/-- The bootstrap `ActionRequest` whose meta has no
`__request_binding_count` key yet (no code path ever creates it before the
increment). -/
def bootFailAReq : ActionReq :=
  { action := navAction, puppeteer_request := some bootPR }

/-- C8: when the bootstrap request marked recoverable fails with HTTP 422,
the retry branch is entered (`meta.get("__request_binding_count", 0) <
N_RETRY_RESTORING`), but the increment
`new_request.meta["__request_binding_count"] += 1` reads a key that was
never created and raises `KeyError` instead of re-issuing the request: the
documented retry never happens. -/
theorem bootstrap_retry_raises_keyerror :
    RestoreMW.processResponse {} bootFailAReq (.plain 422 Option.none) =
      .error (.keyError "__request_binding_count")
    ∧ bootFailAReq.binding_count = Option.none
    ∧ ({} : RestoreMW).n_retry_restoring = 1 :=
  ⟨rfl, rfl, rfl⟩


/-! ## C1 — the CAPTCHA interceptor is transparent to the caller -/

/-- The original caller request of the CAPTCHA scenario: an arbitrary
action `a` with close flag `b`, against a URL matched by the configured
submit-selector domain. -/
def captchaOrig (a : Action) (b : Bool) : PRequest :=
  { reqId := 0, action := a, url := "https://example.test/page",
    close_page := b }

/-- The middleware configuration of the CAPTCHA scenario: solving enabled
and one submit selector whose domain substring matches the scenario URL. -/
def captchaMW : RecaptchaMW :=
  { recaptcha_solving := true,
    submit_selectors :=
      [("example.test",
        .click "#recaptcha-submit" Option.none Option.none Option.none)] }

/-- The caller-transparency property of the CAPTCHA interceptor, for both
branches of the sub-protocol. With a captcha present and the submit
selector matching (`runFound`): the caller observes exactly one delivered
response, of the class `_get_response_class` assigns to the original
action, in the allocated context; three requests are downloaded (original,
solver, click) and the only one carrying `closePage` is the final click,
exactly when the original request asked to close. With no captcha
(`runEmpty`): again exactly one delivered response of the original class,
its `page_id` cleared exactly when closing, only two downloads both with
`closePage` off, and the deferred close carried once by the solver's
`close_on_empty` flag. -/
def captchaScenarioSpec (urljoin : String → String → String) (a : Action)
    (b : Bool) : Prop :=
  let runFound := engineRun urljoin (mockBackend 1) 6 captchaMW
    (captchaOrig a b) 1 []
  let runEmpty := engineRun urljoin (mockBackend 0) 6 captchaMW
    (captchaOrig a b) 1 []
  (∃ r, runFound.1 = .delivered r ∧ r.kind = getResponseClass a
      ∧ r.context_id = some "C0")
    ∧ runFound.2.map (fun q => q.close_page) = [false, false, b]
    ∧ (runFound.2.filter (fun q => q.close_page)).length =
        (if b then 1 else 0)
    ∧ (∃ r, runEmpty.1 = .delivered r ∧ r.kind = getResponseClass a
        ∧ r.page_id = (if b then Option.none else some "P0"))
    ∧ runEmpty.2.map (fun q => q.close_page) = [false, false]
    ∧ runEmpty.2.map (fun q => q.action.closeOnEmptyFlag) = [false, b]

/-- C1: for every non-exempt original action and either close flag, the
CAPTCHA interceptor delivers exactly one response to the caller, of the
original action's classified type, with the page-close semantics applied
exactly once and deferred to the end of the sub-protocol. -/
theorem captcha_interceptor_transparent (urljoin : String → String → String)
    (a : Action) (b : Bool) (h : isCaptchaExempt a = false) :
    captchaScenarioSpec urljoin a b := by
  cases a with
  | screenshot opts => exact absurd h (by simp [isCaptchaExempt])
  | scroll sel w => exact absurd h (by simp [isCaptchaExempt])
  | customJsAction js => exact absurd h (by simp [isCaptchaExempt])
  | recaptchaSolver sr ce n w => exact absurd h (by simp [isCaptchaExempt])
  | goTo u n w hr =>
    cases b <;>
      exact ⟨⟨_, rfl, rfl, rfl⟩, rfl, rfl, ⟨_, rfl, rfl, rfl⟩, rfl, rfl⟩
  | goForward n w =>
    cases b <;>
      exact ⟨⟨_, rfl, rfl, rfl⟩, rfl, rfl, ⟨_, rfl, rfl, rfl⟩, rfl, rfl⟩
  | goBack n w =>
    cases b <;>
      exact ⟨⟨_, rfl, rfl, rfl⟩, rfl, rfl, ⟨_, rfl, rfl, rfl⟩, rfl, rfl⟩
  | click sel co w n =>
    cases b <;>
      exact ⟨⟨_, rfl, rfl, rfl⟩, rfl, rfl, ⟨_, rfl, rfl, rfl⟩, rfl, rfl⟩
  | har =>
    cases b <;>
      exact ⟨⟨_, rfl, rfl, rfl⟩, rfl, rfl, ⟨_, rfl, rfl, rfl⟩, rfl, rfl⟩
  | fillForm im sb =>
    cases b <;>
      exact ⟨⟨_, rfl, rfl, rfl⟩, rfl, rfl, ⟨_, rfl, rfl, rfl⟩, rfl, rfl⟩
  | compose acts =>
    cases b <;>
      exact ⟨⟨_, rfl, rfl, rfl⟩, rfl, rfl, ⟨_, rfl, rfl, rfl⟩, rfl, rfl⟩

/-- Witness for `captcha_interceptor_transparent` at a concrete `GoTo`
with `close_page = true`. -/
theorem captcha_interceptor_transparent_witness :
    isCaptchaExempt
        (.goTo "https://example.test" Option.none Option.none false) = false
    ∧ captchaScenarioSpec (fun _ s => s)
        (.goTo "https://example.test" Option.none Option.none false) true :=
  ⟨rfl, captcha_interceptor_transparent (fun _ s => s)
    (.goTo "https://example.test" Option.none Option.none false) true rfl⟩


end ScrapyPuppeteer
